import Mathlib

/-!
Verification of the wik terminal Wikipedia browser's application core
(state machine, navigation history, menus, text input, theme parsing)
against its natural-language specification.

The Rust sources in src/ are shallowly embedded below:
pure functions become Lean functions; Rust strings are modelled either as
lists of characters or, where byte positions matter (the text-input cursor
and hex parsing), as lists of UTF-8 bytes (Nat); operations that can panic
return Option; spawning a background unit of work is recorded as an event
appended to a log field of the application state.
-/

namespace Wik

/-- Model of utils/misc.rs remainder, instantiated at usize: Rust % on
unsigned integers is Nat.mod. -/
def remainderNat (dividend divisor : Nat) : Nat :=
  ((dividend + divisor) % divisor + divisor) % divisor

/-- Model of utils/misc.rs remainder, instantiated at i64: Rust % on signed
integers is truncated remainder, Int.tmod. -/
def remainderInt (dividend divisor : Int) : Int :=
  Int.tmod (Int.tmod (dividend + divisor) divisor + divisor) divisor

/-- ScrollDirection from app.rs. -/
inductive ScrollDirection
  | UP
  | DOWN
deriving DecidableEq

/-- The default scroll method of the ActionMenu trait (app.rs), as a function
of the menu's total_options and current index.  The UP arm computes over i64
and converts back with try_into().unwrap_or(0), modelled by Int.toNat. -/
def ActionMenu.scroll (total_options : Nat) (index : Nat) :
    ScrollDirection → Nat := fun scroll_direction =>
  if total_options = 0 then index
  else
    match scroll_direction with
    | ScrollDirection.DOWN => remainderNat (index + 1) total_options
    | ScrollDirection.UP =>
        (remainderInt ((index : Int) - 1) (total_options : Int)).toNat

theorem remainderNat_eq_mod (d n : Nat) : remainderNat d n = d % n := by
  unfold remainderNat
  rcases Nat.eq_zero_or_pos n with h | h
  · simp [h]
  · rw [Nat.add_mod_right, Nat.add_mod_right, Nat.mod_mod_of_dvd _ dvd_rfl]

theorem remainderInt_nonneg_eq (d n : Int) (hd : 0 ≤ d + n) (hn : 0 < n) :
    remainderInt d n = (d + n) % n := by
  unfold remainderInt
  have h1 : Int.tmod (d + n) n = (d + n) % n :=
    Int.tmod_eq_emod hd (le_of_lt hn)
  rw [h1]
  have h2 : 0 ≤ (d + n) % n := Int.emod_nonneg _ (ne_of_gt hn)
  rw [Int.tmod_eq_emod (add_nonneg h2 (le_of_lt hn)) (le_of_lt hn)]
  rw [Int.add_emod_self, Int.emod_emod_of_dvd _ dvd_rfl]

theorem scroll_down_eq (N i : Nat) (h : 0 < N) :
    ActionMenu.scroll N i ScrollDirection.DOWN = (i + 1) % N := by
  unfold ActionMenu.scroll
  simp [Nat.ne_of_gt h, remainderNat_eq_mod]

theorem scroll_up_eq (N i : Nat) (h : 0 < N) :
    ActionMenu.scroll N i ScrollDirection.UP = (i + N - 1) % N := by
  unfold ActionMenu.scroll
  simp only [Nat.ne_of_gt h, if_false]
  have hd : (0 : Int) ≤ (i : Int) - 1 + N := by omega
  rw [remainderInt_nonneg_eq _ _ hd (by exact_mod_cast h)]
  have hcast : (i : Int) - 1 + N = ((i + N - 1 : Nat) : Int) := by omega
  rw [hcast]
  rfl

theorem scroll_down_iterate (N : Nat) (h : 0 < N) :
    ∀ (k i : Nat), i < N →
      Nat.iterate (fun j => ActionMenu.scroll N j ScrollDirection.DOWN) k i =
        (i + k) % N := by
  intro k
  induction k with
  | zero => intro i hi; simpa using (Nat.mod_eq_of_lt hi).symm
  | succ m ih =>
    intro i hi
    rw [Function.iterate_succ_apply]
    rw [ih _ (by rw [scroll_down_eq N i h]; exact Nat.mod_lt _ h)]
    rw [scroll_down_eq N i h]
    rw [Nat.mod_add_mod]
    congr 1
    omega

/-- C6: for a menu of N ActionItems with current index i < N, scrolling
forward sets the index to (i + 1) mod N and scrolling backward to
(i - 1 + N) mod N; scrolling backward from 0 yields N - 1; scrolling forward
N times from any valid index returns to it; the index never leaves [0, N);
with N = 0 scrolling is a no-op. -/
theorem C6_scroll_wraparound (N i : Nat) (h : i < N) :
    ActionMenu.scroll N i ScrollDirection.DOWN = (i + 1) % N ∧
    ActionMenu.scroll N i ScrollDirection.UP = (i + N - 1) % N ∧
    ActionMenu.scroll N 0 ScrollDirection.UP = N - 1 ∧
    Nat.iterate (fun j => ActionMenu.scroll N j ScrollDirection.DOWN) N i = i ∧
    ActionMenu.scroll N i ScrollDirection.DOWN < N ∧
    ActionMenu.scroll N i ScrollDirection.UP < N ∧
    (∀ j d, ActionMenu.scroll 0 j d = j) := by
  have hN : 0 < N := by omega
  refine ⟨scroll_down_eq N i hN, scroll_up_eq N i hN, ?_, ?_, ?_, ?_, ?_⟩
  · rw [scroll_up_eq N 0 hN]
    rw [Nat.zero_add]
    exact Nat.mod_eq_of_lt (by omega)
  · rw [scroll_down_iterate N hN N i h]
    rw [Nat.add_mod_right]
    exact Nat.mod_eq_of_lt h
  · rw [scroll_down_eq N i hN]; exact Nat.mod_lt _ hN
  · rw [scroll_up_eq N i hN]; exact Nat.mod_lt _ hN
  · intro j d; rfl

/-- Closed instance of C6 at N = 4, i = 0. -/
theorem C6_scroll_wraparound_witness :
    (0 < (4 : Nat)) ∧
    ActionMenu.scroll 4 0 ScrollDirection.DOWN = 1 ∧
    ActionMenu.scroll 4 0 ScrollDirection.UP = 3 ∧
    Nat.iterate (fun j => ActionMenu.scroll 4 j ScrollDirection.DOWN) 4 0 = 0 := by
  have h := C6_scroll_wraparound 4 0 (by decide)
  exact ⟨by decide, h.1, h.2.2.1, h.2.2.2.1⟩

/-! ## Byte-level model of Rust strings

Rust String indices (cursor positions, hex slices) are byte offsets into
UTF-8 data.  A string is modelled as a List Nat of its UTF-8 bytes; indexing
operations panic (return none) off char boundaries, as in Rust. -/

/-- UTF-8 encoding of a unicode scalar value. -/
def charUtf8 (n : Nat) : List Nat :=
  if n < 0x80 then [n]
  else if n < 0x800 then [0xC0 + n / 0x40, 0x80 + n % 0x40]
  else if n < 0x10000 then
    [0xE0 + n / 0x1000, 0x80 + n / 0x40 % 0x40, 0x80 + n % 0x40]
  else
    [0xF0 + n / 0x40000, 0x80 + n / 0x1000 % 0x40, 0x80 + n / 0x40 % 0x40,
      0x80 + n % 0x40]

/-- UTF-8 bytes of a character sequence. -/
def strBytes (s : List Char) : List Nat :=
  (s.map (fun c => charUtf8 c.toNat)).flatten

/-- Rust str::is_char_boundary: true at 0 and at the length, and at any byte
that is not a UTF-8 continuation byte. -/
def isCharBoundary (s : List Nat) (i : Nat) : Bool :=
  if i = s.length then true
  else
    match s.get? i with
    | some b => decide (b < 0x80 ∨ 0xC0 ≤ b)
    | none => false

/-- Byte width of the UTF-8 character starting with byte b. -/
def charWidth (b : Nat) : Nat :=
  if b < 0xC0 then 1 else if b < 0xE0 then 2 else if b < 0xF0 then 3 else 4

/-- Rust String::insert(idx, ch): panics (none) when idx is beyond the length
or not on a char boundary; cbytes is the UTF-8 encoding of the character. -/
def stringInsert (s : List Nat) (idx : Nat) (cbytes : List Nat) :
    Option (List Nat) :=
  if isCharBoundary s idx = true then
    some (s.take idx ++ cbytes ++ s.drop idx)
  else none

/-- Rust String::remove(idx): removes the character starting at byte idx;
panics (none) when idx is at or beyond the length or not on a boundary. -/
def stringRemove (s : List Nat) (idx : Nat) : Option (List Nat) :=
  if idx < s.length ∧ isCharBoundary s idx = true then
    match s.get? idx with
    | some b => some (s.take idx ++ s.drop (idx + charWidth b))
    | none => none
  else none

/-- CursorDirection from app.rs. -/
inductive CursorDirection
  | LEFT
  | RIGHT
deriving DecidableEq

/-- TitleState from app.rs: a text input with a byte cursor. -/
structure TitleState where
  input : List Nat
  cursor_pos : Nat
deriving DecidableEq

/-- TitleState's TypeableState::insert_to_input_at_cursor:
self.input.insert(self.cursor_pos, c). -/
def TitleState.insert_to_input_at_cursor (t : TitleState) (cbytes : List Nat) :
    Option TitleState :=
  (stringInsert t.input t.cursor_pos cbytes).map (fun s => { t with input := s })

/-- TitleState's TypeableState::remove_from_input_at_cursor. -/
def TitleState.remove_from_input_at_cursor (t : TitleState) : Option TitleState :=
  if t.cursor_pos ≤ t.input.length ∧ t.cursor_pos > 0 then
    (stringRemove t.input (t.cursor_pos - 1)).map (fun s => { t with input := s })
  else some t

/-- The TypeableState trait's default move_cursor_one_step: saturating
decrement or guarded increment, then a clamp to [0, length + 1]. -/
def TitleState.move_cursor_one_step (t : TitleState) (d : CursorDirection) :
    TitleState :=
  let t1 :=
    match d with
    | CursorDirection.LEFT => { t with cursor_pos := t.cursor_pos - 1 }
    | CursorDirection.RIGHT =>
        if t.cursor_pos < t.input.length then
          { t with cursor_pos := t.cursor_pos + 1 }
        else t
  { t1 with cursor_pos := min t1.cursor_pos (t1.input.length + 1) }

/-- The TypeableState trait's default move_cursor_to_start. -/
def TitleState.move_cursor_to_start (t : TitleState) : TitleState :=
  { t with cursor_pos := 0 }

/-- The TypeableState trait's default move_cursor_to_end. -/
def TitleState.move_cursor_to_end (t : TitleState) : TitleState :=
  { t with cursor_pos := t.input.length }

/-- The TypeableState trait's default type_char: insert at the cursor when
cursor_pos ≤ length, then move the cursor one byte right. -/
def TitleState.type_char (t : TitleState) (cbytes : List Nat) :
    Option TitleState :=
  if ¬ t.cursor_pos > t.input.length then
    (t.insert_to_input_at_cursor cbytes).map
      (fun t2 => t2.move_cursor_one_step CursorDirection.RIGHT)
  else some t

/-- The TypeableState trait's default backspace. -/
def TitleState.backspace (t : TitleState) : Option TitleState :=
  if t.input ≠ [] then
    if t.cursor_pos > 0 then
      t.remove_from_input_at_cursor.map
        (fun t2 => t2.move_cursor_one_step CursorDirection.LEFT)
    else some t
  else some t

/-- C7 (evaluation at the failing input): typing the two-byte character
U+00E9 into an empty TitleState leaves the byte cursor at 1, inside the
character's UTF-8 encoding — not a valid insertion point — and typing a
following character panics at String::insert's char-boundary check.  This
contradicts the claim that every TypeableBuffer operation leaves the cursor
at a valid insertion point. -/
theorem C7_cursor_invalid_after_multibyte :
    TitleState.type_char ⟨[], 0⟩ (charUtf8 0xE9) =
      some ⟨[0xC3, 0xA9], 1⟩ ∧
    isCharBoundary [0xC3, 0xA9] 1 = false ∧
    TitleState.type_char ⟨[0xC3, 0xA9], 1⟩ (charUtf8 0x61) = none := by
  decide

/-! ## Hex colour parsing (utils/misc.rs) and themes (styles.rs) -/

/-- The colour variants used by the embedded code (a fragment of the tui
Color enum). -/
inductive Color
  | Rgb (r g b : Nat)
  | White
  | Yellow
  | Green
  | LightBlue
  | LightYellow
deriving DecidableEq

/-- Rust Result. -/
inductive RustResult (α : Type) (ε : Type)
  | ok (value : α)
  | err (error : ε)
deriving DecidableEq

/-- Rust str::trim_start_matches("#"): strips every leading '#' (0x23). -/
def trimHash : List Nat → List Nat
  | [] => []
  | b :: rest => if b = 0x23 then trimHash rest else b :: rest

/-- Value of an ASCII hexadecimal digit byte. -/
def hexDigitVal (b : Nat) : Option Nat :=
  if 0x30 ≤ b ∧ b ≤ 0x39 then some (b - 0x30)
  else if 0x61 ≤ b ∧ b ≤ 0x66 then some (b - 0x61 + 10)
  else if 0x41 ≤ b ∧ b ≤ 0x46 then some (b - 0x41 + 10)
  else none

/-- Digit-accumulation loop of u8::from_str_radix at radix 16; errors when a
byte is not a hex digit or the value exceeds u8::MAX. -/
def hexAccum : List Nat → Nat → Option Nat
  | [], acc => if acc ≤ 255 then some acc else none
  | b :: rest, acc =>
    match hexDigitVal b with
    | some v => hexAccum rest (acc * 16 + v)
    | none => none

/-- u8::from_str_radix(s, 16) over UTF-8 bytes: an optional leading '+'
(0x2B) followed by at least one hex digit; '-' is not accepted for an
unsigned target. -/
def from_str_radix_u8 (s : List Nat) : Option Nat :=
  match s with
  | [] => none
  | b :: rest =>
    if b = 0x2B then
      match rest with
      | [] => none
      | _ => hexAccum rest 0
    else hexAccum (b :: rest) 0

/-- Rust byte-range slicing s[a..b]: panics (none) unless a ≤ b and both ends
are char boundaries (which also forces b ≤ len). -/
def sliceBytes (s : List Nat) (a b : Nat) : Option (List Nat) :=
  if a ≤ b ∧ isCharBoundary s a = true ∧ isCharBoundary s b = true then
    some ((s.drop a).take (b - a))
  else none

/-- Body of utils/misc.rs hex_to_rgb after the '#'-trim: length check, then
the three 2-byte slices parsed in order, with Rust's early return on the
first parse error and a panic (none) on a slice off a char boundary. -/
def hex_to_rgb_trimmed (hex : List Nat) : Option (RustResult Color String) :=
  if hex.length ≠ 6 then
    some (RustResult.err "Hex code must be 6 characters long")
  else
    match sliceBytes hex 0 2 with
    | none => none
    | some s1 =>
      match from_str_radix_u8 s1 with
      | none => some (RustResult.err "Invalid red component")
      | some red =>
        match sliceBytes hex 2 4 with
        | none => none
        | some s2 =>
          match from_str_radix_u8 s2 with
          | none => some (RustResult.err "Invalid green component")
          | some green =>
            match sliceBytes hex 4 6 with
            | none => none
            | some s3 =>
              match from_str_radix_u8 s3 with
              | none => some (RustResult.err "Invalid blue component")
              | some blue => some (RustResult.ok (Color.Rgb red green blue))

/-- utils/misc.rs hex_to_rgb on the UTF-8 bytes of the input; none models a
panic (byte slicing off a char boundary). -/
def hex_to_rgb (input : List Nat) : Option (RustResult Color String) :=
  hex_to_rgb_trimmed (trimHash input)

/-- Theme from styles.rs (colour slots in declaration order). -/
structure Theme where
  name : List Char
  background : Color
  text : Color
  secondary : Color
  tertiary : Color
  highlight : Color
  negative_text : Color
deriving DecidableEq

/-- Theme::default() from styles.rs. -/
def Theme.default : Theme :=
  { name := "Default".data
    background := Color.Rgb 42 49 56
    text := Color.White
    secondary := Color.Yellow
    tertiary := Color.Green
    highlight := Color.LightBlue
    negative_text := Color.LightYellow }

/-- Rust str::split(c) over characters: fields between separator
occurrences, with leading/trailing/adjacent separators yielding empty
fields. -/
def splitOnChar (sep : Char) : List Char → List (List Char)
  | [] => [[]]
  | c :: rest =>
    if c = sep then [] :: splitOnChar sep rest
    else
      match splitOnChar sep rest with
      | g :: gs => (c :: g) :: gs
      | [] => [[c]]

/-- Sequencing of a list of possibly-panicking computations: none when any
element is none (a panic inside the iterator chain propagates). -/
def collectSome {α : Type} : List (Option α) → Option (List α)
  | [] => some []
  | none :: _ => none
  | some a :: rest => (collectSome rest).map (fun l => a :: l)

/-- Theme::from_hex_string_series (styles.rs): split the series on '-', keep
the segments hex_to_rgb accepts, and build a theme when at least six colours
parse, falling back to Theme::default() otherwise. -/
def from_hex_string_series (name : List Char) (hex_string_series : List Char) :
    Option Theme :=
  match collectSome
      ((splitOnChar '-' hex_string_series).map
        (fun seg => hex_to_rgb (strBytes seg))) with
  | none => none
  | some results =>
    let theme_colors := results.filterMap
      (fun r =>
        match r with
        | RustResult.ok c => some c
        | RustResult.err _ => none)
    if h : 6 ≤ theme_colors.length then
      some
        { name := name
          background := theme_colors.get ⟨0, by omega⟩
          text := theme_colors.get ⟨1, by omega⟩
          secondary := theme_colors.get ⟨2, by omega⟩
          tertiary := theme_colors.get ⟨3, by omega⟩
          highlight := theme_colors.get ⟨4, by omega⟩
          negative_text := theme_colors.get ⟨5, by omega⟩ }
    else some Theme.default

/-- The theme-file reading loop of App::default (app.rs): each line is split
on ' '; a missing second token breaks out of the loop; otherwise the first
token names a theme parsed from the second.  none models a panic. -/
def loadThemeLines : List (List Char) → Option (List Theme)
  | [] => some []
  | line :: rest =>
    let line_split := splitOnChar ' ' line
    match line_split.get? 1 with
    | none => some []
    | some colours =>
      match line_split.get? 0 with
      | none => some []
      | some name =>
        match from_hex_string_series name colours with
        | none => none
        | some theme => (loadThemeLines rest).map (fun ts => theme :: ts)

/-- App::default's theme list: the file's themes, or one "Normal" theme when
the file yielded none. -/
def app_default_themes (lines : List (List Char)) : Option (List Theme) :=
  match loadThemeLines lines with
  | none => none
  | some themes =>
    if themes.length = 0 then
      (from_hex_string_series "Normal".data
          "2a3138-ffffff-c19c00-13a10e-3b78ff-000000".data).map
        (fun t => [t])
    else some themes

theorem mem_trimHash : ∀ (l : List Nat), ∀ b ∈ trimHash l, b ∈ l := by
  intro l
  induction l with
  | nil => intro b hb; simp [trimHash] at hb
  | cons x rest ih =>
    intro b hb
    unfold trimHash at hb
    by_cases hx : x = 0x23
    · rw [if_pos hx] at hb
      exact List.mem_cons_of_mem _ (ih b hb)
    · rw [if_neg hx] at hb
      exact hb

theorem isCharBoundary_of_ascii (s : List Nat) (i : Nat)
    (hs : ∀ b ∈ s, b < 0x80) (hi : i ≤ s.length) :
    isCharBoundary s i = true := by
  unfold isCharBoundary
  by_cases h : i = s.length
  · simp [h]
  · have hlt : i < s.length := by omega
    rw [if_neg h, List.get?_eq_get hlt]
    simp only [decide_eq_true_eq]
    exact Or.inl (hs _ (List.get_mem s i hlt))

theorem hexDigitVal_bounds (b v : Nat) (h : hexDigitVal b = some v) :
    0x30 ≤ b ∧ b < 0x80 ∧ v ≤ 15 := by
  unfold hexDigitVal at h
  split_ifs at h with h1 h2 h3 <;> simp at h <;> omega

theorem hex_ascii_total (input : List Nat) (hascii : ∀ b ∈ input, b < 0x80) :
    hex_to_rgb input ≠ none := by
  have hta : ∀ b ∈ trimHash input, b < 0x80 :=
    fun b hb => hascii b (mem_trimHash input b hb)
  unfold hex_to_rgb hex_to_rgb_trimmed
  by_cases hlen : (trimHash input).length = 6
  · rw [if_neg (by omega)]
    have hb0 := isCharBoundary_of_ascii _ 0 hta (by omega)
    have hb2 := isCharBoundary_of_ascii _ 2 hta (by omega)
    have hb4 := isCharBoundary_of_ascii _ 4 hta (by omega)
    have hb6 := isCharBoundary_of_ascii _ 6 hta (by omega)
    have hs1 : sliceBytes (trimHash input) 0 2 =
        some ((trimHash input).take 2) := by
      unfold sliceBytes; rw [if_pos ⟨by omega, hb0, hb2⟩]; rw [List.drop_zero]
    have hs2 : sliceBytes (trimHash input) 2 4 =
        some (((trimHash input).drop 2).take 2) := by
      unfold sliceBytes; rw [if_pos ⟨by omega, hb2, hb4⟩]
    have hs3 : sliceBytes (trimHash input) 4 6 =
        some (((trimHash input).drop 4).take 2) := by
      unfold sliceBytes; rw [if_pos ⟨by omega, hb4, hb6⟩]
    rw [hs1, hs2, hs3]
    cases h1 : from_str_radix_u8 ((trimHash input).take 2) <;>
      cases h2 : from_str_radix_u8 (((trimHash input).drop 2).take 2) <;>
        cases h3 : from_str_radix_u8 (((trimHash input).drop 4).take 2) <;>
          simp [h1, h2, h3]
  · rw [if_pos hlen]
    simp


/-- Two hex-digit bytes parse to the expected u8 value. -/
theorem from_str_radix_u8_digits (d1 d2 v1 v2 : Nat)
    (h1 : hexDigitVal d1 = some v1) (h2 : hexDigitVal d2 = some v2) :
    from_str_radix_u8 [d1, d2] = some (v1 * 16 + v2) := by
  obtain ⟨hb1, _, hv1⟩ := hexDigitVal_bounds d1 v1 h1
  obtain ⟨hb2, _, hv2⟩ := hexDigitVal_bounds d2 v2 h2
  simp [from_str_radix_u8, hexAccum, h1, h2, show d1 ≠ 43 by omega,
    show v1 * 16 + v2 ≤ 255 by omega]

/-- C10 amended: hex_to_rgb strips all leading '#' bytes; it returns the
length error when the trimmed input is not 6 bytes; it never panics on
all-ASCII input; and six hex-digit bytes yield Ok(Rgb) of the three byte
pairs. -/
theorem C10_hex_to_rgb_amended (input : List Nat) :
    ((trimHash input).length ≠ 6 →
      hex_to_rgb input = some (RustResult.err "Hex code must be 6 characters long")) ∧
    ((∀ b ∈ input, b < 0x80) → hex_to_rgb input ≠ none) ∧
    (∀ d1 d2 d3 d4 d5 d6 v1 v2 v3 v4 v5 v6,
      trimHash input = [d1, d2, d3, d4, d5, d6] →
      hexDigitVal d1 = some v1 → hexDigitVal d2 = some v2 →
      hexDigitVal d3 = some v3 → hexDigitVal d4 = some v4 →
      hexDigitVal d5 = some v5 → hexDigitVal d6 = some v6 →
      hex_to_rgb input = some (RustResult.ok
        (Color.Rgb (v1 * 16 + v2) (v3 * 16 + v4) (v5 * 16 + v6)))) := by
  refine ⟨?_, hex_ascii_total input, ?_⟩
  · intro hlen
    unfold hex_to_rgb hex_to_rgb_trimmed
    rw [if_pos hlen]
  · intro d1 d2 d3 d4 d5 d6 v1 v2 v3 v4 v5 v6 hdl h1 h2 h3 h4 h5 h6
    obtain ⟨hl1, hu1, hv1⟩ := hexDigitVal_bounds d1 v1 h1
    obtain ⟨hl2, hu2, hv2⟩ := hexDigitVal_bounds d2 v2 h2
    obtain ⟨hl3, hu3, hv3⟩ := hexDigitVal_bounds d3 v3 h3
    obtain ⟨hl4, hu4, hv4⟩ := hexDigitVal_bounds d4 v4 h4
    obtain ⟨hl5, hu5, hv5⟩ := hexDigitVal_bounds d5 v5 h5
    obtain ⟨hl6, hu6, hv6⟩ := hexDigitVal_bounds d6 v6 h6
    have hb0 : isCharBoundary [d1, d2, d3, d4, d5, d6] 0 = true := by
      simp [isCharBoundary]
      omega
    have hb2 : isCharBoundary [d1, d2, d3, d4, d5, d6] 2 = true := by
      simp [isCharBoundary]
      omega
    have hb4 : isCharBoundary [d1, d2, d3, d4, d5, d6] 4 = true := by
      simp [isCharBoundary]
      omega
    have hb6 : isCharBoundary [d1, d2, d3, d4, d5, d6] 6 = true := by
      simp [isCharBoundary]
    have hs1 : sliceBytes [d1, d2, d3, d4, d5, d6] 0 2 = some [d1, d2] := by
      unfold sliceBytes
      rw [if_pos ⟨by omega, hb0, hb2⟩]
      rfl
    have hs2 : sliceBytes [d1, d2, d3, d4, d5, d6] 2 4 = some [d3, d4] := by
      unfold sliceBytes
      rw [if_pos ⟨by omega, hb2, hb4⟩]
      rfl
    have hs3 : sliceBytes [d1, d2, d3, d4, d5, d6] 4 6 = some [d5, d6] := by
      unfold sliceBytes
      rw [if_pos ⟨by omega, hb4, hb6⟩]
      rfl
    simp [hex_to_rgb, hex_to_rgb_trimmed, hdl, hs1, hs2, hs3,
      from_str_radix_u8_digits d1 d2 v1 v2 h1 h2,
      from_str_radix_u8_digits d3 d4 v3 v4 h3 h4,
      from_str_radix_u8_digits d5 d6 v5 v6 h5 h6]


/-- C10 counterexample: "##ffffff" parses Ok (every leading '#' stripped,
not at most one); "aéxyz" is 6 bytes long but panics (byte index 2 is not a
char boundary), so hex_to_rgb does not return a result for every input; and
"+1+2+3" parses Ok although '+' is not a hexadecimal digit. -/
theorem C10_counterexample :
    hex_to_rgb (strBytes "##ffffff".data) = some (RustResult.ok (Color.Rgb 255 255 255)) ∧
    hex_to_rgb (strBytes "aéxyz".data) = none ∧
    hex_to_rgb (strBytes "+1+2+3".data) = some (RustResult.ok (Color.Rgb 1 2 3)) := by
  decide

/-- Closed instance of C10 amended at "#2a3138" and at the 4-byte "0000". -/
theorem C10_hex_to_rgb_amended_witness :
    hex_to_rgb (strBytes "#2a3138".data) = some (RustResult.ok (Color.Rgb 42 49 56)) ∧
    hex_to_rgb (strBytes "0000".data) =
      some (RustResult.err "Hex code must be 6 characters long") := by
  refine ⟨?_, (C10_hex_to_rgb_amended (strBytes "0000".data)).1 (by decide)⟩
  have h := (C10_hex_to_rgb_amended (strBytes "#2a3138".data)).2.2
    0x32 0x61 0x33 0x31 0x33 0x38 2 10 3 1 3 8 (by decide) (by decide)
    (by decide) (by decide) (by decide) (by decide) (by decide)
  exact h

/-- C8 counterexample: the well-formed Dark line alone parses to its theme,
but after the malformed line "Broken" (a single token) the loop breaks and
the same Dark line produces nothing — a malformed line does abort loading
of subsequent lines. -/
theorem C8_counterexample :
    loadThemeLines ["Dark 000000-ffffff-ff0000-00ff00-0000ff-111111".data] =
      some [{ name := "Dark".data, background := Color.Rgb 0 0 0,
              text := Color.Rgb 255 255 255, secondary := Color.Rgb 255 0 0,
              tertiary := Color.Rgb 0 255 0, highlight := Color.Rgb 0 0 255,
              negative_text := Color.Rgb 17 17 17 }] ∧
    loadThemeLines ["Broken".data,
      "Dark 000000-ffffff-ff0000-00ff00-0000ff-111111".data] = some [] := by
  decide

/-- C8 amended: a theme line with fewer than 2 space-separated tokens stops
processing entirely (no subsequent line yields a theme).  A line with at
least 2 tokens whose colour segments all parse without panicking yields
exactly one theme and processing continues with the remaining lines — the
theme from_hex_string_series returns, which is the built-in Default theme
(not a skip) whenever fewer than six colours parse; a line whose second
token makes hex_to_rgb panic (a byte slice off a char boundary) aborts
theme loading with no theme produced and no further line processed. -/
theorem C8_theme_line_amended (line : List Char) (rest : List (List Char)) :
    ((splitOnChar ' ' line).get? 1 = none → loadThemeLines (line :: rest) = some []) ∧
    (∀ name colours theme, (splitOnChar ' ' line).get? 0 = some name →
      (splitOnChar ' ' line).get? 1 = some colours →
      from_hex_string_series name colours = some theme →
      loadThemeLines (line :: rest) =
        (loadThemeLines rest).map (fun ts => theme :: ts)) ∧
    (∀ name colours, (splitOnChar ' ' line).get? 0 = some name →
      (splitOnChar ' ' line).get? 1 = some colours →
      from_hex_string_series name colours = none →
      loadThemeLines (line :: rest) = none) ∧
    (∀ name colours results,
      collectSome ((splitOnChar '-' colours).map
        (fun seg => hex_to_rgb (strBytes seg))) = some results →
      (results.filterMap (fun r =>
        match r with
        | RustResult.ok c => some c
        | RustResult.err _ => none)).length < 6 →
      from_hex_string_series name colours = some Theme.default) := by
  refine ⟨?_, ?_, ?_, ?_⟩
  · intro h
    simp only [loadThemeLines, h]
  · intro name colours theme h0 h1 hf
    simp only [loadThemeLines, h0, h1, hf]
  · intro name colours h0 h1 hf
    simp only [loadThemeLines, h0, h1, hf]
  · intro name colours results hcol hlen
    simp only [from_hex_string_series, hcol]
    rw [dif_neg (by omega)]

/-- Closed instance of C8 amended: "X" stops the loop; the Dark line yields
its theme and recurses on the rest; "Name aéxyz" (two tokens, panicking
colour segment) aborts with no theme; "onlytoken" (two tokens, zero
parseable colours) yields the built-in Default theme. -/
theorem C8_theme_line_amended_witness :
    loadThemeLines ["X".data,
      "Dark 000000-ffffff-ff0000-00ff00-0000ff-111111".data] = some [] ∧
    loadThemeLines ["Dark 000000-ffffff-ff0000-00ff00-0000ff-111111".data] =
      (loadThemeLines []).map
        (fun ts =>
          ({ name := "Dark".data, background := Color.Rgb 0 0 0,
             text := Color.Rgb 255 255 255, secondary := Color.Rgb 255 0 0,
             tertiary := Color.Rgb 0 255 0, highlight := Color.Rgb 0 0 255,
             negative_text := Color.Rgb 17 17 17 } : Theme) :: ts) ∧
    loadThemeLines ["Name aéxyz".data] = none ∧
    from_hex_string_series "Broken".data "onlytoken".data = some Theme.default := by
  refine ⟨?_, ?_, ?_, ?_⟩
  · exact (C8_theme_line_amended "X".data
      ["Dark 000000-ffffff-ff0000-00ff00-0000ff-111111".data]).1 (by decide)
  · exact (C8_theme_line_amended
      "Dark 000000-ffffff-ff0000-00ff00-0000ff-111111".data []).2.1
      "Dark".data "000000-ffffff-ff0000-00ff00-0000ff-111111".data
      { name := "Dark".data, background := Color.Rgb 0 0 0,
        text := Color.Rgb 255 255 255, secondary := Color.Rgb 255 0 0,
        tertiary := Color.Rgb 0 255 0, highlight := Color.Rgb 0 0 255,
        negative_text := Color.Rgb 17 17 17 }
      (by decide) (by decide) (by decide)
  · exact (C8_theme_line_amended "Name aéxyz".data []).2.2.1
      "Name".data "aéxyz".data (by decide) (by decide) (by decide)
  · exact (C8_theme_line_amended "Broken onlytoken".data []).2.2.2
      "Broken".data "onlytoken".data
      [RustResult.err "Hex code must be 6 characters long"]
      (by decide) (by decide)

/-- C9 counterexample: the line "Broken onlytoken" does yield a theme — the
built-in Default theme — so the themes list has one entry and the "Normal"
fallback (shown on the empty file) is not taken; the claim said the line
yields no theme and the zero-theme fallback applies. -/
theorem C9_counterexample :
    app_default_themes ["Broken onlytoken".data] = some [Theme.default] ∧
    Theme.default.name = "Default".data ∧
    app_default_themes [] =
      some [{ name := "Normal".data, background := Color.Rgb 42 49 56,
              text := Color.Rgb 255 255 255, secondary := Color.Rgb 193 156 0,
              tertiary := Color.Rgb 19 161 14, highlight := Color.Rgb 59 120 255,
              negative_text := Color.Rgb 0 0 0 }] := by
  decide

/-- C9 amended: the Dark line parses to a "Dark" theme with exactly the six
colours in slot order; "Broken onlytoken" yields the built-in Default theme
(not nothing); and a file yielding zero themes falls back to exactly one
built-in "Normal" theme. -/
theorem C9_theme_parsing_amended :
    from_hex_string_series "Dark".data
        "000000-ffffff-ff0000-00ff00-0000ff-111111".data =
      some { name := "Dark".data, background := Color.Rgb 0 0 0,
             text := Color.Rgb 255 255 255, secondary := Color.Rgb 255 0 0,
             tertiary := Color.Rgb 0 255 0, highlight := Color.Rgb 0 0 255,
             negative_text := Color.Rgb 17 17 17 } ∧
    from_hex_string_series "Broken".data "onlytoken".data = some Theme.default ∧
    (app_default_themes []).map (fun ts => ts.length) = some 1 ∧
    app_default_themes [] =
      some [{ name := "Normal".data, background := Color.Rgb 42 49 56,
              text := Color.Rgb 255 255 255, secondary := Color.Rgb 193 156 0,
              tertiary := Color.Rgb 19 161 14, highlight := Color.Rgb 59 120 255,
              negative_text := Color.Rgb 0 0 0 }] := by
  decide


/-! ## The application state machine (app.rs)

Queries and titles are modelled as lists of characters.  Each Shared slot
becomes a plain field plus, where the code uses try_lock, a boolean
recording whether a non-blocking acquire currently fails (contention).
Calling into wikipedia.rs (load_search_query_to_app / load_article_to_app)
spawns a background unit of work; the call itself is what app.rs decides,
so it is recorded as an event appended to a load log. -/

/-- AppState from app.rs. -/
inductive AppState
  | Title
  | Search
  | SearchMenu
  | Article
  | ArticleMenu
  | Credit
  | ThemeMenu
deriving DecidableEq

/-- Modelled from the spec: SearchResult of the ContentService interface
(wikipedia.rs is not part of src/); app.rs reads only its title field. -/
structure SearchResult where
  title : List Char
deriving DecidableEq

/-- Modelled from the spec: FormattedSpan carries an optional link target
(parsing.rs is not part of src/); the embedded app.rs functions read only
the link field. -/
structure FormattedSpan where
  link : Option (List Char)
deriving DecidableEq

/-- A spawned background unit of work: a call to
wikipedia::load_search_query_to_app or wikipedia::load_article_to_app. -/
inductive LoadEvent
  | searchLoad (query : List Char)
  | articleLoad (title : List Char)
deriving DecidableEq

/-- SearchState from app.rs. -/
structure SearchState where
  input : List Char
  current_query : List Char
  results : List SearchResult
  cursor_pos : Nat
  is_loading_query : Bool
  is_loading_query_contended : Bool
  selected_index : Nat
  text_box_is_highlighted : Bool
deriving DecidableEq

/-- SearchState::currently_loading: the flag's value, or true when the
non-blocking acquire fails. -/
def SearchState.currently_loading (s : SearchState) : Bool :=
  if s.is_loading_query_contended then true else s.is_loading_query

/-- SearchState::selected_search_result_title. -/
def SearchState.selected_search_result_title (s : SearchState) :
    Option (List Char) :=
  match s.results.get? s.selected_index with
  | some result => some result.title
  | none => none

/-- ArticleState from app.rs. -/
structure ArticleState where
  article_name : List Char
  markdown_spans : List FormattedSpan
  markdown_spans_contended : Bool
  has_loaded_article : Bool
  link_span_indices : List Nat
  link_span_indices_contended : Bool
  is_valid_page : Bool
  selected_link_index : Nat
  vertical_scroll : Nat
  back_history : List (List Char)
  forward_history : List (List Char)
deriving DecidableEq

/-- ArticleState::get_selected_link: none under contention or when the
selected index has no link-bearing span. -/
def ArticleState.get_selected_link (s : ArticleState) : Option (List Char) :=
  if s.link_span_indices_contended then none
  else
    match s.link_span_indices.get? s.selected_link_index with
    | some index =>
      if s.markdown_spans_contended then none
      else
        match s.markdown_spans.get? index with
        | some span => span.link
        | none => none
    | none => none

/-- ArticleState::go_back_a_page: with more than one back entry, move the
last back entry to the front of forward history. -/
def ArticleState.go_back_a_page (s : ArticleState) : ArticleState :=
  if s.back_history.length ≤ 1 then s
  else
    match s.back_history.getLast? with
    | some title =>
        { s with back_history := s.back_history.dropLast,
                 forward_history := title :: s.forward_history }
    | none => s

/-- ArticleState::go_forward_a_page: move the first forward entry to the
back of back history. -/
def ArticleState.go_forward_a_page (s : ArticleState) : ArticleState :=
  match s.forward_history with
  | [] => s
  | title :: rest =>
      { s with forward_history := rest,
               back_history := s.back_history ++ [title] }

/-- The App fields the embedded entry points touch, plus the log of spawned
background loads. -/
structure App where
  search : SearchState
  article : ArticleState
  state : AppState
  loads : List LoadEvent
deriving DecidableEq

/-- App::load_wikipedia_search_query: with a non-empty input and the search
loading gate closed, record the query and spawn the background search load;
in every case un-highlight the text box. -/
def App.load_wikipedia_search_query (a : App) : App :=
  let a1 :=
    if 0 < a.search.input.length then
      if a.search.currently_loading = false then
        { a with
          search := { a.search with current_query := a.search.input },
          loads := a.loads ++ [LoadEvent.searchLoad a.search.input] }
      else a
    else a
  { a1 with search := { a1.search with text_box_is_highlighted := false } }

/-- App::set_article_page: record the article name and spawn the background
article load. -/
def App.set_article_page (a : App) (title : List Char) : App :=
  { a with
    article := { a.article with article_name := title },
    loads := a.loads ++ [LoadEvent.articleLoad title] }

/-- App::search_and_load: switch to the Search screen, pre-fill the input
with the title and request the search. -/
def App.search_and_load (a : App) (title : List Char) : App :=
  App.load_wikipedia_search_query
    { a with state := AppState.Search,
             search := { a.search with input := title } }

/-- The busy-poll loop of App::try_getting_page.  poll i is the outcome of
the i-th try_lock of the has-loaded flag (none: contended; some b: flag
value b); the loop body continues on none and some false and breaks on
some true.  The fuel argument bounds how many iterations are examined:
the loop terminates within some fuel iff some poll observes true. -/
def try_getting_page_wait (poll : Nat → Option Bool) :
    Nat → Nat → Option Nat
  | 0, _ => none
  | fuel + 1, i =>
    match poll i with
    | some true => some i
    | _ => try_getting_page_wait poll fuel (i + 1)

/-- App::try_getting_page: start the article load, busy-poll the has-loaded
flag, then read is_valid_page (the valid argument models that blocking read)
and branch: valid pages switch to the Article screen, invalid ones redirect
to a fresh search pre-filled with the title.  none models a loop that never
observes the flag true within the given fuel. -/
def App.try_getting_page (a : App) (title : List Char)
    (poll : Nat → Option Bool) (fuel : Nat) (valid : Bool) : Option App :=
  let a1 := a.set_article_page title
  match try_getting_page_wait poll fuel 0 with
  | none => none
  | some _ =>
    if valid then some { a1 with state := AppState.Article }
    else some (a1.search_and_load title)

/-- Rust str::replace("_", " ") over characters. -/
def replaceUnderscores : List Char → List Char
  | [] => []
  | c :: rest => (if c = '_' then ' ' else c) :: replaceUnderscores rest

/-- Rust str::replace("./", "") over characters: drops non-overlapping
leftmost occurrences. -/
def removeDotSlash : List Char → List Char
  | [] => []
  | '.' :: '/' :: rest => removeDotSlash rest
  | c :: rest => c :: removeDotSlash rest

/-- The title formatting of view_selected_article_from_selected_link. -/
def formatTitle (title : List Char) : List Char :=
  removeDotSlash (replaceUnderscores title)

/-- App::view_selected_article_from_search. -/
def App.view_selected_article_from_search (a : App) : App :=
  match a.search.selected_search_result_title with
  | some title =>
    let a1 := { a with state := AppState.Article }
    let a2 := a1.set_article_page title
    let a3 := { a2 with
      article := { a2.article with back_history := [], forward_history := [] } }
    { a3 with article := { a3.article with
        back_history := a3.article.back_history ++ [title] } }
  | none => { a with state := AppState.SearchMenu }

/-- App::view_selected_article_from_selected_link. -/
def App.view_selected_article_from_selected_link (a : App) : App :=
  match a.article.get_selected_link with
  | some title =>
    let a1 := { a with
      article := { a.article with selected_link_index := 0, vertical_scroll := 0 } }
    let a2 := a1.set_article_page (formatTitle title)
    let a3 := { a2 with
      article := { a2.article with forward_history := [] } }
    { a3 with article := { a3.article with
        back_history := a3.article.back_history ++ [formatTitle title] } }
  | none => a

/-- App::load_page_from_history: reload the last back-history entry when one
exists. -/
def App.load_page_from_history (a : App) : App :=
  match a.article.back_history.getLast? with
  | some title => a.set_article_page title
  | none => a

/-- App::go_to_previous_article. -/
def App.go_to_previous_article (a : App) : App :=
  App.load_page_from_history { a with article := a.article.go_back_a_page }

/-- App::go_to_next_article. -/
def App.go_to_next_article (a : App) : App :=
  App.load_page_from_history { a with article := a.article.go_forward_a_page }


theorem load_wikipedia_search_query_state (a : App) :
    (a.load_wikipedia_search_query).state = a.state := by
  simp only [App.load_wikipedia_search_query]
  split_ifs <;> rfl

theorem load_wikipedia_search_query_input (a : App) :
    (a.load_wikipedia_search_query).search.input = a.search.input := by
  simp only [App.load_wikipedia_search_query]
  split_ifs <;> rfl

theorem load_wikipedia_search_query_article (a : App) :
    (a.load_wikipedia_search_query).article = a.article := by
  simp only [App.load_wikipedia_search_query]
  split_ifs <;> rfl

theorem load_wikipedia_search_query_go (a : App)
    (hin : 0 < a.search.input.length)
    (h : a.search.currently_loading = false) :
    (a.load_wikipedia_search_query).loads =
      a.loads ++ [LoadEvent.searchLoad a.search.input] ∧
    (a.load_wikipedia_search_query).search.current_query = a.search.input := by
  simp [App.load_wikipedia_search_query, hin, h]

/-- C1: in any state where the search loading flag is observed true (either
its value is true or the non-blocking acquire fails), a call to
load_wikipedia_search_query spawns no background unit of work and leaves
current_query, the results slot and the loading flag unchanged: the request
is dropped, not queued. -/
theorem C1_search_request_dropped (a : App)
    (h : a.search.currently_loading = true) :
    (a.load_wikipedia_search_query).loads = a.loads ∧
    (a.load_wikipedia_search_query).search.current_query =
      a.search.current_query ∧
    (a.load_wikipedia_search_query).search.results = a.search.results ∧
    (a.load_wikipedia_search_query).search.is_loading_query =
      a.search.is_loading_query := by
  simp [App.load_wikipedia_search_query, h]

/-- Initial application state of App::default (the fields of the model). -/
def app0 : App :=
  { search := { input := [], current_query := [], results := [],
                cursor_pos := 0, is_loading_query := false,
                is_loading_query_contended := false, selected_index := 0,
                text_box_is_highlighted := true },
    article := { article_name := "Philosophy".data, markdown_spans := [],
                 markdown_spans_contended := false,
                 has_loaded_article := false, link_span_indices := [],
                 link_span_indices_contended := false, is_valid_page := true,
                 selected_link_index := 0, vertical_scroll := 0,
                 back_history := [], forward_history := [] },
    state := AppState.Title,
    loads := [] }

/-- A state with a pending search request outstanding. -/
def appBusy : App :=
  { app0 with
    search := { app0.search with
      input := "cat".data
      is_loading_query := true } }

/-- Closed instance of C1 at a concrete busy state. -/
theorem C1_search_request_dropped_witness :
    (appBusy.load_wikipedia_search_query).loads = appBusy.loads ∧
    (appBusy.load_wikipedia_search_query).search.current_query =
      appBusy.search.current_query ∧
    (appBusy.load_wikipedia_search_query).search.results =
      appBusy.search.results ∧
    (appBusy.load_wikipedia_search_query).search.is_loading_query =
      appBusy.search.is_loading_query :=
  C1_search_request_dropped appBusy (by decide)


theorem try_getting_page_wait_isSome (poll : Nat → Option Bool) :
    ∀ (fuel i : Nat), (∃ k, k < fuel ∧ poll (i + k) = some true) →
      (try_getting_page_wait poll fuel i).isSome = true := by
  intro fuel
  induction fuel with
  | zero =>
    intro i h
    obtain ⟨k, hk, _⟩ := h
    omega
  | succ m ih =>
    intro i h
    obtain ⟨k, hk, hp⟩ := h
    unfold try_getting_page_wait
    cases hpi : poll i with
    | none =>
      have hk0 : k ≠ 0 := by
        intro h0
        rw [h0, Nat.add_zero] at hp
        rw [hpi] at hp
        exact Option.noConfusion hp
      exact ih (i + 1) ⟨k - 1, by omega, by rw [show i + 1 + (k - 1) = i + k by omega]; exact hp⟩
    | some b =>
      cases b with
      | true => rfl
      | false =>
        have hk0 : k ≠ 0 := by
          intro h0
          rw [h0, Nat.add_zero] at hp
          rw [hpi] at hp
          exact Bool.noConfusion (Option.some.inj hp)
        exact ih (i + 1) ⟨k - 1, by omega, by rw [show i + 1 + (k - 1) = i + k by omega]; exact hp⟩

theorem exists_true_of_wait_isSome (poll : Nat → Option Bool) :
    ∀ (fuel i : Nat), (try_getting_page_wait poll fuel i).isSome = true →
      ∃ n, poll n = some true := by
  intro fuel
  induction fuel with
  | zero => intro i h; exact absurd h (by simp [try_getting_page_wait])
  | succ m ih =>
    intro i h
    unfold try_getting_page_wait at h
    cases hpi : poll i with
    | none =>
      rw [hpi] at h
      exact ih (i + 1) h
    | some b =>
      cases b with
      | true => exact ⟨i, hpi⟩
      | false =>
        rw [hpi] at h
        exact ih (i + 1) h

/-- C3: the busy-poll wait loop of try_getting_page exits exactly when some
try_lock of the has-loaded flag observes the value true: if the flag is
eventually observed true the loop terminates (some finite fuel suffices),
and while no poll observes true the loop never exits. -/
theorem C3_wait_loop_terminates_iff (poll : Nat → Option Bool) :
    (∃ n, poll n = some true) ↔
      ∃ fuel, (try_getting_page_wait poll fuel 0).isSome = true := by
  constructor
  · intro h
    obtain ⟨n, hn⟩ := h
    exact ⟨n + 1, try_getting_page_wait_isSome poll (n + 1) 0
      ⟨n, by omega, by simpa using hn⟩⟩
  · intro h
    obtain ⟨fuel, hf⟩ := h
    exact exists_true_of_wait_isSome poll fuel 0 hf


/-- C2: whenever the wait loop observes the has-loaded flag true, the
branching of try_getting_page is exactly: a valid page switches to the
Article screen; an invalid page redirects to the Search screen with the
input pre-filled with the title and (for a non-empty title with the search
gate open) a background search load spawned after the article load. -/
theorem C2_try_getting_page_branches (a : App) (title : List Char)
    (poll : Nat → Option Bool) (fuel : Nat)
    (hterm : (try_getting_page_wait poll fuel 0).isSome = true) :
    (App.try_getting_page a title poll fuel true =
      some { a.set_article_page title with state := AppState.Article }) ∧
    (∃ r, App.try_getting_page a title poll fuel false = some r ∧
      r.state = AppState.Search ∧
      r.search.input = title ∧
      (title ≠ [] → a.search.currently_loading = false →
        r.loads = a.loads ++
          [LoadEvent.articleLoad title, LoadEvent.searchLoad title] ∧
        r.search.current_query = title)) := by
  obtain ⟨k, hk⟩ := Option.isSome_iff_exists.mp hterm
  refine ⟨?_, (a.set_article_page title).search_and_load title, ?_, ?_, ?_, ?_⟩
  · unfold App.try_getting_page
    rw [hk]
    rfl
  · unfold App.try_getting_page
    rw [hk]
    rfl
  · unfold App.search_and_load
    rw [load_wikipedia_search_query_state]
  · unfold App.search_and_load
    rw [load_wikipedia_search_query_input]
  · intro hne hload
    unfold App.search_and_load
    have hin : 0 < ({ a.set_article_page title with
        state := AppState.Search,
        search := { (a.set_article_page title).search with input := title } } :
          App).search.input.length := by
      simpa using List.length_pos.mpr hne
    have hload2 : ({ a.set_article_page title with
        state := AppState.Search,
        search := { (a.set_article_page title).search with input := title } } :
          App).search.currently_loading = false := by
      simpa [SearchState.currently_loading, App.set_article_page] using hload
    have hgo := load_wikipedia_search_query_go _ hin hload2
    constructor
    · rw [hgo.1]
      simp [App.set_article_page]
    · rw [hgo.2]


/-- Closed instance of C2: one poll observing the flag true, on the default
state with title "Cat". -/
theorem C2_try_getting_page_branches_witness :
    App.try_getting_page app0 "Cat".data (fun _ => some true) 1 true =
      some { app0.set_article_page "Cat".data with state := AppState.Article } ∧
    (App.try_getting_page app0 "Cat".data (fun _ => some true) 1 false).map
        (fun r => (r.state, r.search.input, r.loads, r.search.current_query)) =
      some (AppState.Search, "Cat".data,
        [LoadEvent.articleLoad "Cat".data, LoadEvent.searchLoad "Cat".data],
        "Cat".data) := by
  have h := C2_try_getting_page_branches app0 "Cat".data (fun _ => some true) 1
    (by decide)
  refine ⟨h.1, ?_⟩
  obtain ⟨r, hr, hstate, hinput, hcond⟩ := h.2
  obtain ⟨hloads, hquery⟩ := hcond (by decide) (by decide)
  rw [hr]
  simp [hstate, hinput, hquery, hloads, app0]


/-- A state one page deep in history, as after opening one search result. -/
def appOnePage : App :=
  { app0 with
    article := { app0.article with back_history := ["Philosophy".data] } }

/-- C4 counterexample: with back history ["Philosophy"], goBack is claimed
to change nothing, but go_to_previous_article still issues a reload of
"Philosophy" (a new background unit of work). -/
theorem C4_counterexample :
    App.go_to_previous_article appOnePage ≠ appOnePage := by
  decide

/-- C4 amended: with at least two back entries, goBack moves the last back
entry to the front of forward history and reloads the new last entry; with
back history of length at most 1 the histories are unchanged but the last
back entry (when one exists) is still reloaded.  goForward moves the first
forward entry to the end of back history and reloads it; with empty forward
history the histories are unchanged but the last back entry (when one
exists) is still reloaded. -/
theorem C4_history_navigation_amended (a : App) :
    (∀ ts t2 t, a.article.back_history = ts ++ [t2, t] →
      App.go_to_previous_article a =
        App.set_article_page
          { a with article := { a.article with
              back_history := ts ++ [t2],
              forward_history := t :: a.article.forward_history } } t2) ∧
    (a.article.back_history.length ≤ 1 →
      (App.go_to_previous_article a).article.back_history =
        a.article.back_history ∧
      (App.go_to_previous_article a).article.forward_history =
        a.article.forward_history ∧
      (App.go_to_previous_article a).loads =
        a.loads ++ (match a.article.back_history.getLast? with
          | some t => [LoadEvent.articleLoad t]
          | none => [])) ∧
    (∀ t rest, a.article.forward_history = t :: rest →
      App.go_to_next_article a =
        App.set_article_page
          { a with article := { a.article with
              forward_history := rest,
              back_history := a.article.back_history ++ [t] } } t) ∧
    (a.article.forward_history = [] →
      (App.go_to_next_article a).article.back_history =
        a.article.back_history ∧
      (App.go_to_next_article a).article.forward_history =
        a.article.forward_history ∧
      (App.go_to_next_article a).loads =
        a.loads ++ (match a.article.back_history.getLast? with
          | some t => [LoadEvent.articleLoad t]
          | none => [])) := by
  refine ⟨?_, ?_, ?_, ?_⟩
  · intro ts t2 t hb
    have hlen : ¬ a.article.back_history.length ≤ 1 := by
      rw [hb]; simp
    have hsplit : ts ++ [t2, t] = (ts ++ [t2]) ++ [t] := by simp
    have hlast : a.article.back_history.getLast? = some t := by
      rw [hb, hsplit]; exact List.getLast?_concat _
    have hdrop : a.article.back_history.dropLast = ts ++ [t2] := by
      rw [hb, hsplit]; exact List.dropLast_concat
    have hgb : a.article.go_back_a_page =
        { a.article with
          back_history := ts ++ [t2]
          forward_history := t :: a.article.forward_history } := by
      unfold ArticleState.go_back_a_page
      rw [if_neg hlen, hlast, hdrop]
    unfold App.go_to_previous_article
    rw [hgb]
    unfold App.load_page_from_history
    simp only [List.getLast?_concat]
  · intro hle
    have hgb : a.article.go_back_a_page = a.article := by
      unfold ArticleState.go_back_a_page
      rw [if_pos hle]
    unfold App.go_to_previous_article
    rw [hgb]
    unfold App.load_page_from_history
    cases hl : a.article.back_history.getLast? with
    | none => simp [hl]
    | some t => simp [hl, App.set_article_page]
  · intro t rest hf
    have hgf : a.article.go_forward_a_page =
        { a.article with
          forward_history := rest
          back_history := a.article.back_history ++ [t] } := by
      unfold ArticleState.go_forward_a_page
      rw [hf]
    unfold App.go_to_next_article
    rw [hgf]
    unfold App.load_page_from_history
    simp only [List.getLast?_concat]
  · intro hf
    have hgf : a.article.go_forward_a_page = a.article := by
      unfold ArticleState.go_forward_a_page
      rw [hf]
    unfold App.go_to_next_article
    rw [hgf]
    unfold App.load_page_from_history
    cases hl : a.article.back_history.getLast? with
    | none => simp [hl]
    | some t => simp [hl, App.set_article_page]


/-- A state two pages deep in back history. -/
def appTwoPages : App :=
  { app0 with
    article := { app0.article with
      back_history := ["Philosophy".data, "Plato".data] } }

/-- A state with one forward entry. -/
def appForward : App :=
  { app0 with
    article := { app0.article with
      back_history := ["Philosophy".data]
      forward_history := ["Plato".data] } }

/-- Closed instance of C4 amended: goBack from ["Philosophy", "Plato"] and
goForward with forward ["Plato"]. -/
theorem C4_history_navigation_amended_witness :
    App.go_to_previous_article appTwoPages =
      App.set_article_page
        { appTwoPages with article := { appTwoPages.article with
            back_history := ["Philosophy".data]
            forward_history := ["Plato".data] } } "Philosophy".data ∧
    App.go_to_next_article appForward =
      App.set_article_page
        { appForward with article := { appForward.article with
            forward_history := []
            back_history := ["Philosophy".data, "Plato".data] } } "Plato".data := by
  constructor
  · exact (C4_history_navigation_amended appTwoPages).1 []
      "Philosophy".data "Plato".data (by decide)
  · exact (C4_history_navigation_amended appForward).2.2.1
      "Plato".data [] (by decide)

/-- C5: following a selected link clears the forward history, appends the
formatted link target to the back history and spawns its article load;
opening a selected search result resets the histories so that back history
is exactly the opened title and forward history is empty, spawns its
article load and switches to the Article screen. -/
theorem C5_follow_link_and_open_from_search (a : App) :
    (∀ title, a.article.get_selected_link = some title →
      (a.view_selected_article_from_selected_link).article.forward_history = [] ∧
      (a.view_selected_article_from_selected_link).article.back_history =
        a.article.back_history ++ [formatTitle title] ∧
      (a.view_selected_article_from_selected_link).loads =
        a.loads ++ [LoadEvent.articleLoad (formatTitle title)]) ∧
    (∀ title, a.search.selected_search_result_title = some title →
      (a.view_selected_article_from_search).article.back_history = [title] ∧
      (a.view_selected_article_from_search).article.forward_history = [] ∧
      (a.view_selected_article_from_search).loads =
        a.loads ++ [LoadEvent.articleLoad title] ∧
      (a.view_selected_article_from_search).state = AppState.Article) := by
  constructor
  · intro title h
    unfold App.view_selected_article_from_selected_link
    rw [h]
    simp [App.set_article_page]
  · intro title h
    unfold App.view_selected_article_from_search
    rw [h]
    simp [App.set_article_page]

/-- A state with one link-bearing span selected and one search result. -/
def appLinked : App :=
  { app0 with
    search := { app0.search with results := [{ title := "Plato".data }] }
    article := { app0.article with
      markdown_spans := [{ link := some "Big_Cat".data }]
      link_span_indices := [0]
      back_history := ["Philosophy".data]
      forward_history := ["Zeno".data] } }

/-- Closed instance of C5 on appLinked: the link "Big_Cat" is formatted to
"Big Cat", appended and loaded; opening the search result "Plato" resets
the histories. -/
theorem C5_follow_link_and_open_from_search_witness :
    (appLinked.view_selected_article_from_selected_link).article.back_history =
      ["Philosophy".data, "Big Cat".data] ∧
    (appLinked.view_selected_article_from_selected_link).article.forward_history =
      [] ∧
    (appLinked.view_selected_article_from_search).article.back_history =
      ["Plato".data] ∧
    (appLinked.view_selected_article_from_search).article.forward_history =
      [] := by
  have h := C5_follow_link_and_open_from_search appLinked
  have h1 := h.1 "Big_Cat".data (by decide)
  have h2 := h.2 "Plato".data (by decide)
  refine ⟨?_, h1.1, h2.1, h2.2.1⟩
  rw [h1.2.1]
  decide

end Wik
